import Mathlib

/-!
# Verification of the analytics risk-scoring service

Shallow embedding of `src/analytics/app.py`: an in-memory sliding-window
frequency tracker (`HISTORY`) and a rule-based risk scorer, exposed as a
single `/analyze` handler (`analyze`).

Modelling choices:
* Timestamps are integers counting whole seconds (`Int`); `datetime.now()`
  becomes an explicit `now : Int` parameter of the handler.
* Python's `(now - t).seconds` is the seconds *component* of a normalized
  `timedelta`, i.e. the floor-mod of the elapsed seconds by 86400 (one day);
  this is `pySeconds` below, using Lean's `Int.emod` which agrees with
  Python's `%` on negative numbers as well.
* A Python dict is a function into `Option`: `none` means the key is absent.
* Identifiers are `Option String`, since `data.get('patientHash')` yields
  `None` when the field is missing and that value is used as a dict key.
* `risk_score` values (the Python floats 0, 0.3, 0.8) are rationals.
-/

/-- Python `dict.get`-style lookup: a dict from `κ` to `List Int`. -/
def PyDict (κ : Type) : Type := κ → Option (List Int)

/-- The empty dict `{}`. -/
def PyDict.empty (κ : Type) : PyDict κ := fun _ => none

/-- `d[k] = v` : point update of a dict. -/
def PyDict.insert {κ : Type} [DecidableEq κ] (d : PyDict κ) (k : κ) (v : List Int) :
    PyDict κ :=
  fun k2 => if k2 = k then some v else d k2

/-- The request body: `data.get('patientHash')` / `data.get('doctorAddress')`
return `none` when the field is absent. -/
structure RequestData where
  patientHash : Option String
  doctorAddress : Option String
deriving DecidableEq

/-- The JSON response assembled at the end of `analyze`
(`risk_score`, `reason`, `count_last_hour`). -/
structure AnalyzeResponse where
  risk_score : ℚ
  reason : String
  count_last_hour : ℕ
deriving DecidableEq

/-- The process-wide `HISTORY` dict with its `patients` and `doctors`
sub-dicts (app.py lines 10–13). -/
structure ServiceState where
  patients : PyDict (Option String)
  doctors : PyDict (Option String)

/-- `HISTORY = { 'patients': {}, 'doctors': {} }` : the initial state. -/
def initialState : ServiceState :=
  { patients := PyDict.empty _, doctors := PyDict.empty _ }

/-- Python's `(delta).seconds` for a whole-second `timedelta`: the
normalized seconds component, `delta mod 86400` (floor mod, result in
`[0, 86400)`). -/
def pySeconds (delta : Int) : Int := delta % 86400

/-- The retention test of app.py line 29: keep `t` iff
`(now - t).seconds < 3600`. -/
def keepEvent (now t : Int) : Bool := decide (pySeconds (now - t) < 3600)

/-- The rule-based scoring of app.py lines 35–43: default
`(0, "Normal usage pattern.")`, overridden when `count > 3` or
`count > 1`. -/
def score (count : ℕ) : ℚ × String :=
  if count > 3 then
    (0.8, "High frequency: " ++ toString count ++ " prescriptions in last hour.")
  else if count > 1 then
    (0.3, "Moderate frequency.")
  else
    (0, "Normal usage pattern.")

/-- The `/analyze` handler body (app.py lines 16–49), given the parsed
request `data`, the current time `now` and the pre-state `s`.  Mirrors the
source: ensure the key exists, append `now`, replace the bucket by the
filtered list, then score its length. -/
def analyze (data : RequestData) (now : Int) (s : ServiceState) :
    AnalyzeResponse × ServiceState :=
  let p_hash := data.patientHash
  let _d_addr := data.doctorAddress
  let patients0 :=
    if (s.patients p_hash).isNone then s.patients.insert p_hash [] else s.patients
  let appended := ((patients0 p_hash).getD []) ++ [now]
  let patients1 := patients0.insert p_hash appended
  let pruned := (patients1 p_hash).getD [] |>.filter (keepEvent now)
  let patients2 := patients1.insert p_hash pruned
  let count := pruned.length
  let scored := score count
  ({ risk_score := scored.1, reason := scored.2, count_last_hour := count },
   { s with patients := patients2 })

/-- The error surfaced to the client when the request body fails to parse. -/
inductive ClientError where
  | badRequest
deriving DecidableEq

/-- Modelled from the spec: the HTTP/JSON boundary (`data = request.json`,
app.py line 17) is handled by the web framework, which is not part of
`src/`.  Per the spec, a malformed body is "surfaced as a client error; the
operation must not mutate History Store state before validation succeeds"
— the parse happens before any handler statement runs, so a parse failure
(`body = none`) aborts the request with a client error and leaves the
state untouched; a well-formed body runs `analyze`. -/
def handleRequest (body : Option RequestData) (now : Int) (s : ServiceState) :
    Except ClientError AnalyzeResponse × ServiceState :=
  match body with
  | none => (Except.error ClientError.badRequest, s)
  | some data => (Except.ok (analyze data now s).1, (analyze data now s).2)

/-- Run a sequence of requests (each with its arrival time) through the
handler, collecting the responses. -/
def runAnalyze : List (RequestData × Int) → ServiceState →
    List AnalyzeResponse × ServiceState
  | [], s => ([], s)
  | r :: rest, s =>
    ((analyze r.1 r.2 s).1 :: (runAnalyze rest (analyze r.1 r.2 s).2).1,
     (runAnalyze rest (analyze r.1 r.2 s).2).2)

/-- The request used in the spec's concrete scenarios: identifier `"p1"`. -/
def p1req : RequestData := { patientHash := some "p1", doctorAddress := none }

/-! ## Basic facts about a single `analyze` step -/

lemma keepEvent_of_recent {now t : Int} (h0 : t ≤ now) (h1 : now - t < 3600) :
    keepEvent now t = true := by
  simp only [keepEvent, pySeconds, decide_eq_true_eq]
  rw [Int.emod_eq_of_lt (by omega) (by omega)]
  omega

lemma analyze_fst_eq (d : RequestData) (now : Int) (s : ServiceState) :
    (analyze d now s).1 =
      { risk_score :=
          (score (((s.patients d.patientHash).getD [] ++ [now]).filter (keepEvent now)).length).1,
        reason :=
          (score (((s.patients d.patientHash).getD [] ++ [now]).filter (keepEvent now)).length).2,
        count_last_hour :=
          (((s.patients d.patientHash).getD [] ++ [now]).filter (keepEvent now)).length } := by
  cases h : s.patients d.patientHash <;>
    simp [analyze, PyDict.insert, h]

lemma analyze_count_eq (d : RequestData) (now : Int) (s : ServiceState) :
    (analyze d now s).1.count_last_hour =
      (((s.patients d.patientHash).getD [] ++ [now]).filter (keepEvent now)).length := by
  rw [analyze_fst_eq]

lemma analyze_patients_eq (d : RequestData) (now : Int) (s : ServiceState) :
    (analyze d now s).2.patients =
      PyDict.insert s.patients d.patientHash
        (((s.patients d.patientHash).getD [] ++ [now]).filter (keepEvent now)) := by
  funext k
  by_cases hk : k = d.patientHash <;>
    cases h : s.patients d.patientHash <;>
      simp [analyze, PyDict.insert, h, hk]

lemma analyze_doctors_eq (d : RequestData) (now : Int) (s : ServiceState) :
    (analyze d now s).2.doctors = s.doctors := rfl

lemma analyze_bucket_self (d : RequestData) (now : Int) (s : ServiceState) :
    (analyze d now s).2.patients d.patientHash
      = some (((s.patients d.patientHash).getD [] ++ [now]).filter (keepEvent now)) := by
  rw [analyze_patients_eq]
  simp [PyDict.insert]

lemma analyze_fst_congr (d : RequestData) (now : Int) (s s' : ServiceState)
    (h : s.patients d.patientHash = s'.patients d.patientHash) :
    (analyze d now s).1 = (analyze d now s').1 := by
  rw [analyze_fst_eq, analyze_fst_eq, h]

lemma runAnalyze_nil (s : ServiceState) : runAnalyze [] s = ([], s) := rfl

lemma runAnalyze_cons (r : RequestData × Int) (rest : List (RequestData × Int))
    (s : ServiceState) :
    runAnalyze (r :: rest) s =
      ((analyze r.1 r.2 s).1 :: (runAnalyze rest (analyze r.1 r.2 s).2).1,
       (runAnalyze rest (analyze r.1 r.2 s).2).2) := rfl

/-- The inductive heart of the within-window counting property: if the
identifier's bucket currently holds `l`, and all of `l` and the remaining
call times `ts` fit strictly inside one window (with `ts` monotone), then
no call prunes anything and the returned counts continue `l.length + 1`,
`l.length + 2`, …. -/
lemma runAnalyze_counts (d : RequestData) :
    ∀ (ts l : List Int) (s : ServiceState),
      ts.Pairwise (· ≤ ·) →
      (∀ x ∈ l, ∀ y ∈ ts, x ≤ y ∧ y - x < 3600) →
      (∀ x ∈ ts, ∀ y ∈ ts, x ≤ y → y - x < 3600) →
      (s.patients d.patientHash).getD [] = l →
      (runAnalyze (ts.map fun t => (d, t)) s).1.map (·.count_last_hour)
        = List.range' (l.length + 1) ts.length
  | [], l, s, _, _, _, _ => by simp [runAnalyze]
  | t :: rest, l, s, hmono, hl, hw, hb => by
    obtain ⟨hthead, hmono2⟩ := List.pairwise_cons.mp hmono
    have hfilter : ((s.patients d.patientHash).getD [] ++ [t]).filter (keepEvent t)
        = l ++ [t] := by
      rw [hb]
      refine List.filter_eq_self.mpr ?_
      intro x hx
      rcases List.mem_append.mp hx with hxl | hxt
      · obtain ⟨hle, hwin⟩ := hl x hxl t (List.mem_cons_self t rest)
        exact keepEvent_of_recent hle hwin
      · rw [List.mem_singleton.mp hxt]
        exact keepEvent_of_recent le_rfl (by omega)
    have hcount : (analyze d t s).1.count_last_hour = l.length + 1 := by
      rw [analyze_count_eq, hfilter, List.length_append, List.length_singleton]
    have hb2 : ((analyze d t s).2.patients d.patientHash).getD [] = l ++ [t] := by
      rw [analyze_patients_eq, hfilter]
      simp [PyDict.insert]
    have hl2 : ∀ x ∈ l ++ [t], ∀ y ∈ rest, x ≤ y ∧ y - x < 3600 := by
      intro x hx y hy
      rcases List.mem_append.mp hx with hxl | hxt
      · exact hl x hxl y (List.mem_cons_of_mem t hy)
      · rw [List.mem_singleton.mp hxt]
        exact ⟨hthead y hy,
          hw t (List.mem_cons_self t rest) y (List.mem_cons_of_mem t hy) (hthead y hy)⟩
    have hw2 : ∀ x ∈ rest, ∀ y ∈ rest, x ≤ y → y - x < 3600 := fun x hx y hy =>
      hw x (List.mem_cons_of_mem t hx) y (List.mem_cons_of_mem t hy)
    have ih := runAnalyze_counts d rest (l ++ [t]) (analyze d t s).2 hmono2 hl2 hw2 hb2
    rw [List.map_cons, runAnalyze_cons]
    simp only [List.map_cons, List.length_cons]
    rw [List.range'_succ, hcount, ih, List.length_append, List.length_singleton]

/-! ## Claim theorems -/

/-- **C1** (code bug exhibited): the claim says an event recorded at time
`T` is counted at `T'` iff `T' − T < 3600` with the boundary exclusive, and
must be excluded from the first call at or after `T + 3600`.  The source
tests `(now - t).seconds < 3600`, and `.seconds` is the *seconds component*
of the timedelta (elapsed seconds mod 86400), so a one-day-old event passes
the test: recording for `"p1"` at `T = 0` and again at `T' = 86400` yields
counts `[1, 2]` and the stale event `0` is still stored — the claim demands
count `1` there.  The exact-boundary case at one hour does behave as
claimed (`keepEvent 3600 0 = false`); only ages ≥ one day wrap around. -/
theorem stale_event_retained_after_one_day :
    ((runAnalyze [(p1req, 0), (p1req, 86400)] initialState).1.map (·.count_last_hour)
        = [1, 2])
    ∧ ((runAnalyze [(p1req, 0), (p1req, 86400)] initialState).2.patients (some "p1")
        = some [0, 86400])
    ∧ keepEvent 86400 0 = true
    ∧ keepEvent 3600 0 = false := by
  refine ⟨by decide, by decide, by decide, by decide⟩

/-- **C2**: `score` is total on ℕ and its three branches partition the
non-negative integers with no gap or overlap: `count ≤ 1` gives
`(0, "Normal usage pattern.")`, `count ∈ {2, 3}` gives
`(0.3, "Moderate frequency.")`, and `count > 3` gives
`(0.8, "High frequency: {count} prescriptions in last hour.")`. -/
theorem score_total_partition (c : ℕ) :
    ((c ≤ 1 ∧ ¬(c = 2 ∨ c = 3) ∧ ¬3 < c)
        ∧ score c = (0, "Normal usage pattern."))
    ∨ (((c = 2 ∨ c = 3) ∧ ¬c ≤ 1 ∧ ¬3 < c)
        ∧ score c = (0.3, "Moderate frequency."))
    ∨ ((3 < c ∧ ¬c ≤ 1 ∧ ¬(c = 2 ∨ c = 3))
        ∧ score c = (0.8, "High frequency: " ++ toString c
            ++ " prescriptions in last hour.")) := by
  match c with
  | 0 => exact Or.inl ⟨by omega, by decide⟩
  | 1 => exact Or.inl ⟨by omega, by decide⟩
  | 2 => exact Or.inr (Or.inl ⟨by omega, rfl⟩)
  | 3 => exact Or.inr (Or.inl ⟨by omega, rfl⟩)
  | n + 4 =>
    refine Or.inr (Or.inr ⟨by omega, ?_⟩)
    unfold score
    rw [if_pos (show n + 4 > 3 by omega)]

/-- Witness for **C2** at the concrete count 4. -/
theorem score_total_partition_witness :
    ((4 ≤ 1 ∧ ¬(4 = 2 ∨ 4 = 3) ∧ ¬3 < 4)
        ∧ score 4 = (0, "Normal usage pattern."))
    ∨ (((4 = 2 ∨ 4 = 3) ∧ ¬4 ≤ 1 ∧ ¬3 < 4)
        ∧ score 4 = (0.3, "Moderate frequency."))
    ∨ ((3 < 4 ∧ ¬4 ≤ 1 ∧ ¬(4 = 2 ∨ 4 = 3))
        ∧ score 4 = (0.8, "High frequency: " ++ toString 4
            ++ " prescriptions in last hour.")) :=
  score_total_partition 4

/-- **C3**: starting from the fresh store, any monotone sequence of call
times for one identifier that all fit strictly inside one window returns
counts `1, 2, …, N`; concretely, 4 calls for `"p1"` at `t = 0, 1, 2, 3`
return counts `[1, 2, 3, 4]`, and the fourth response carries
`risk_score = 0.8` and `count_last_hour = 4`. -/
theorem counts_within_window (d : RequestData) (ts : List Int)
    (hmono : ts.Pairwise (· ≤ ·))
    (hwin : ∀ x ∈ ts, ∀ y ∈ ts, x ≤ y → y - x < 3600) :
    ((runAnalyze (ts.map fun t => (d, t)) initialState).1.map (·.count_last_hour)
        = List.range' 1 ts.length)
    ∧ ((runAnalyze [(p1req, 0), (p1req, 1), (p1req, 2), (p1req, 3)] initialState).1.map
          (·.count_last_hour) = [1, 2, 3, 4])
    ∧ ((runAnalyze [(p1req, 0), (p1req, 1), (p1req, 2), (p1req, 3)] initialState).1.getLast?
        = some { risk_score := 0.8,
                 reason := "High frequency: 4 prescriptions in last hour.",
                 count_last_hour := 4 }) := by
  refine ⟨?_, by decide, rfl⟩
  have h := runAnalyze_counts d ts [] initialState hmono (by simp) hwin rfl
  simpa using h

/-- Witness for **C3** at the concrete schedule `t = 0, 1, 2, 3`. -/
theorem counts_within_window_witness :
    (List.Pairwise (· ≤ ·) [(0 : Int), 1, 2, 3]
      ∧ (∀ x ∈ [(0 : Int), 1, 2, 3], ∀ y ∈ [(0 : Int), 1, 2, 3], x ≤ y → y - x < 3600))
    ∧ ((runAnalyze ([(0 : Int), 1, 2, 3].map fun t => (p1req, t)) initialState).1.map
        (·.count_last_hour) = List.range' 1 [(0 : Int), 1, 2, 3].length) :=
  ⟨⟨by decide, by decide⟩,
    (counts_within_window p1req [0, 1, 2, 3] (by decide) (by decide)).1⟩

/-- A second identifier, used to witness isolation across identifiers. -/
def p2req : RequestData := { patientHash := some "p2", doctorAddress := none }

/-- **C4**: a call for identifier `a` leaves identifier `b`'s stored bucket
unchanged, and a later call for `b` returns the same response and final
bucket whether or not `a`'s call happened. -/
theorem identifier_isolation (a b : RequestData) (t1 t2 : Int) (s : ServiceState)
    (hne : b.patientHash ≠ a.patientHash) :
    ((analyze a t1 s).2.patients b.patientHash = s.patients b.patientHash)
    ∧ ((analyze b t2 (analyze a t1 s).2).1 = (analyze b t2 s).1)
    ∧ ((analyze b t2 (analyze a t1 s).2).2.patients b.patientHash
        = (analyze b t2 s).2.patients b.patientHash) := by
  have hframe : (analyze a t1 s).2.patients b.patientHash = s.patients b.patientHash := by
    rw [analyze_patients_eq]
    simp [PyDict.insert, hne]
  refine ⟨hframe, analyze_fst_congr b t2 _ s hframe, ?_⟩
  rw [analyze_bucket_self, analyze_bucket_self, hframe]

/-- Witness for **C4**: a call for `"p1"` does not disturb `"p2"`. -/
theorem identifier_isolation_witness :
    p2req.patientHash ≠ p1req.patientHash
    ∧ (((analyze p1req 0 initialState).2.patients p2req.patientHash
          = initialState.patients p2req.patientHash)
        ∧ ((analyze p2req 5 (analyze p1req 0 initialState).2).1
            = (analyze p2req 5 initialState).1)
        ∧ ((analyze p2req 5 (analyze p1req 0 initialState).2).2.patients p2req.patientHash
            = (analyze p2req 5 initialState).2.patients p2req.patientHash)) :=
  ⟨by decide, identifier_isolation p1req p2req 0 5 initialState (by decide)⟩

/-- **C5**: a parsed body without `patientHash` is not rejected — the absent
value (`none`) is used as the dict key, so every unidentified request lands
in the single `none` bucket and their events accumulate there together. -/
theorem missing_identifier_shared_bucket (d1 d2 : RequestData) (t1 t2 : Int)
    (s : ServiceState) (h1 : d1.patientHash = none) (h2 : d2.patientHash = none) :
    ((handleRequest (some d1) t1 s).1 = Except.ok (analyze d1 t1 s).1)
    ∧ ((analyze d1 t1 s).2.patients none
        = some (((s.patients none).getD [] ++ [t1]).filter (keepEvent t1)))
    ∧ ((analyze d2 t2 (analyze d1 t1 s).2).1.count_last_hour
        = ((((s.patients none).getD [] ++ [t1]).filter (keepEvent t1) ++ [t2]).filter
            (keepEvent t2)).length) := by
  refine ⟨rfl, ?_, ?_⟩
  · rw [analyze_patients_eq, h1]
    simp [PyDict.insert]
  · rw [analyze_count_eq, h2, analyze_patients_eq, h1]
    simp [PyDict.insert]

/-- Witness for **C5**: two requests missing `patientHash` (one of them even
carrying a doctor address) share the `none` bucket — the second one counts
both events. -/
theorem missing_identifier_shared_bucket_witness :
    ((RequestData.mk none none).patientHash = none
      ∧ (RequestData.mk none (some "0xDoc")).patientHash = none)
    ∧ (analyze (RequestData.mk none (some "0xDoc")) 1
        (analyze (RequestData.mk none none) 0 initialState).2).1.count_last_hour = 2 := by
  have h := missing_identifier_shared_bucket (RequestData.mk none none)
    (RequestData.mk none (some "0xDoc")) 0 1 initialState rfl rfl
  exact ⟨⟨rfl, rfl⟩, by rw [h.2.2]; decide⟩

/-- **C6**: a malformed body (failed parse) is surfaced as a client error
and the History Store state is returned untouched, so a bad request neither
crashes the handler (which stays total) nor corrupts the shared store. -/
theorem malformed_body_no_mutation (now : Int) (s : ServiceState) :
    ((handleRequest none now s).1 = Except.error ClientError.badRequest)
    ∧ ((handleRequest none now s).2 = s) :=
  ⟨rfl, rfl⟩

/-- **C7**: two requests that agree on `patientHash` and differ only in
`doctorAddress` (possibly absent) produce the same response and the same
final state — `doctorAddress` is dead input. -/
theorem doctorAddress_no_influence (d1 d2 : RequestData) (now : Int) (s : ServiceState)
    (h : d1.patientHash = d2.patientHash) :
    analyze d1 now s = analyze d2 now s := by
  obtain ⟨p1, a1⟩ := d1
  obtain ⟨p2, a2⟩ := d2
  obtain rfl : p1 = p2 := h
  rfl

/-- Witness for **C7** at two concrete doctor addresses. -/
theorem doctorAddress_no_influence_witness :
    analyze { patientHash := some "p1", doctorAddress := some "0xA" } 7 initialState
      = analyze { patientHash := some "p1", doctorAddress := some "0xB" } 7 initialState :=
  doctorAddress_no_influence
    { patientHash := some "p1", doctorAddress := some "0xA" }
    { patientHash := some "p1", doctorAddress := some "0xB" } 7 initialState rfl

/-- **C8**: one `analyze` step replaces the identifier's bucket by a filter
of `old ++ [now]` — a sublist of it, so timestamps are never reordered, and
every timestamp that survives the window test keeps its full multiplicity,
so duplicates at the same instant are never merged. -/
theorem append_prune_preserves_order (d : RequestData) (now : Int) (s : ServiceState)
    (x : Int) (hx : keepEvent now x = true) :
    ((analyze d now s).2.patients d.patientHash
        = some (((s.patients d.patientHash).getD [] ++ [now]).filter (keepEvent now)))
    ∧ ((((s.patients d.patientHash).getD [] ++ [now]).filter (keepEvent now)).Sublist
        ((s.patients d.patientHash).getD [] ++ [now]))
    ∧ ((((s.patients d.patientHash).getD [] ++ [now]).filter (keepEvent now)).count x
        = ((s.patients d.patientHash).getD [] ++ [now]).count x) := by
  refine ⟨?_, List.filter_sublist _, List.count_filter hx⟩
  rw [analyze_patients_eq]
  simp [PyDict.insert]

/-- Witness for **C8**: two events for `"p1"` at the same instant are both
stored — the bucket holds the timestamp twice. -/
theorem append_prune_preserves_order_witness :
    keepEvent 5 5 = true
    ∧ (analyze p1req 5 (analyze p1req 5 initialState).2).2.patients p1req.patientHash
        = some [5, 5] := by
  have h := append_prune_preserves_order p1req 5 (analyze p1req 5 initialState).2 5
    (by decide)
  exact ⟨by decide, by rw [h.1]; decide⟩

/-- **C10**: the doctor-keyed history is inert — it starts empty, every
request sequence preserves it, it stays the empty mapping from the initial
state, and the response of a request does not depend on it at all. -/
theorem doctors_history_inert :
    (initialState.doctors = PyDict.empty (Option String))
    ∧ (∀ (reqs : List (RequestData × Int)) (s : ServiceState),
        (runAnalyze reqs s).2.doctors = s.doctors)
    ∧ (∀ (reqs : List (RequestData × Int)) (k : Option String),
        (runAnalyze reqs initialState).2.doctors k = none)
    ∧ (∀ (d : RequestData) (now : Int) (s s' : ServiceState),
        s.patients = s'.patients → (analyze d now s).1 = (analyze d now s').1) := by
  have hpres : ∀ (reqs : List (RequestData × Int)) (s : ServiceState),
      (runAnalyze reqs s).2.doctors = s.doctors := by
    intro reqs
    induction reqs with
    | nil => intro s; rfl
    | cons r rest ih =>
      intro s
      rw [runAnalyze_cons]
      exact (ih _).trans (analyze_doctors_eq r.1 r.2 s)
  refine ⟨rfl, hpres, ?_, ?_⟩
  · intro reqs k
    rw [hpres]
    rfl
  · intro d now s s' h
    exact analyze_fst_congr d now s s' (by rw [h])

/-- Witness for **C10**: after the concrete 4-call scenario the doctor
history is still empty at a sample key. -/
theorem doctors_history_inert_witness :
    (runAnalyze [(p1req, 0), (p1req, 1), (p1req, 2), (p1req, 3)] initialState).2.doctors
      (some "dr") = none :=
  doctors_history_inert.2.2.1 [(p1req, 0), (p1req, 1), (p1req, 2), (p1req, 3)] (some "dr")
